import Mathlib

/-!
Shallow embedding of the Omron K3HB load-display polling scripts
(`src/OmronV3.py` and `src/Omron_TestScript_v2.py`): CompoWay/F
request-frame construction with an XOR block-check character (BCC),
response validation and cleaning, data-section extraction, and signed
hexadecimal decoding with a fixed decimal scaling factor.

Bytes of the outbound frame are modelled as `Nat` (each < 256 in
practice); the inbound response — a Python `str` after lossy ASCII
decoding — is modelled as `List Char`.  Fallible steps return
`Except FrameError`.
-/

namespace Omron

/-- Error kinds of the response-processing pipeline, one per distinct
`ValueError` site in the source (`FramingError{MissingSTX, MissingETX,
FrameTooShort}` and `DecodeError{NotHex}`). -/
inductive FrameError where
  | MissingSTX
  | MissingETX
  | FrameTooShort
  | NotHex
  deriving DecidableEq, Repr

/-- `STX = 0x02`, start-of-text delimiter byte (source line `STX = 0x02`). -/
def STX : Nat := 0x02

/-- `ETX = 0x03`, end-of-text delimiter byte (source line `ETX = 0x03`). -/
def ETX : Nat := 0x03

/-- `calculate_bcc` from the source: running XOR of all bytes of `data`,
starting from 0. -/
def calculate_bcc (data : List Nat) : Nat :=
  data.foldl (fun bcc byte => bcc ^^^ byte) 0

/-- Request-frame construction from the source's main loop:
`frame = [STX] + data_ascii + [ETX]`, then
`bcc = calculate_bcc(frame[1:])` and `frame.append(bcc)`. -/
def build_request (data_ascii : List Nat) : List Nat :=
  let frame := STX :: data_ascii ++ [ETX]
  frame ++ [calculate_bcc (frame.drop 1)]

/-- `validate_and_clean_response` from the source: `MissingSTX` when the
input is empty or its first character is not `'\x02'`; `MissingETX` when
no `'\x03'` occurs; otherwise `response[:response.index('\x03') + 1]`,
the frame up to and including the first ETX. -/
def validate_and_clean_response (response : List Char) :
    Except FrameError (List Char) :=
  if response.head? ≠ some '\x02' then .error .MissingSTX
  else if '\x03' ∉ response then .error .MissingETX
  else .ok (response.take (response.indexOf '\x03' + 1))

/-- `extract_data_section` from the source: `frame_body = response[1:-1]`,
error `FrameTooShort` when `len(frame_body) < 16`, otherwise
`frame_body[13:]`. -/
def extract_data_section (response : List Char) :
    Except FrameError (List Char) :=
  let frame_body := (response.drop 1).dropLast
  if frame_body.length < 16 then .error .FrameTooShort
  else .ok (frame_body.drop 13)

/-- Value of one hexadecimal digit character, `none` for a non-digit. -/
def hexDigitValue? (c : Char) : Option Nat :=
  if '0' ≤ c ∧ c ≤ '9' then some (c.toNat - '0'.toNat)
  else if 'a' ≤ c ∧ c ≤ 'f' then some (c.toNat - 'a'.toNat + 10)
  else if 'A' ≤ c ∧ c ≤ 'F' then some (c.toNat - 'A'.toNat + 10)
  else none

/-- Models Python `int(s, 16)` restricted to plain (unsigned, unprefixed)
hexadecimal digit strings, the shape of every CompoWay/F data section:
`none` (a `ValueError`) when `s` is empty or contains a character that is
not a hexadecimal digit. -/
def hexToNat? (s : List Char) : Option Nat :=
  if s = [] then none
  else s.foldl
    (fun acc c => acc.bind fun a => (hexDigitValue? c).map fun d => 16 * a + d)
    (some 0)

/-- `decode_signed_value` from `OmronV3.py`: parse the data section as
base 16 (`NotHex` on failure), then subtract `2 ** bit_length` when the
parsed value is `>= 2 ** (bit_length - 1)`. -/
def decode_signed_value (hex_value : List Char) (bit_length : Nat := 16) :
    Except FrameError Int :=
  match hexToNat? hex_value with
  | none => .error .NotHex
  | some value =>
      .ok (if value ≥ 2 ^ (bit_length - 1) then (value : Int) - 2 ^ bit_length
           else (value : Int))

/-- The V3 main loop's decode-and-scale step:
`decoded_value = decode_signed_value(data_section)` followed by
`display_value = decoded_value / 10` (Python true division, modelled
over `Rat`). -/
def v3_display_value (data_section : List Char) : Except FrameError Rat :=
  (decode_signed_value data_section).map fun decoded_value =>
    (decoded_value : Rat) / 10

/-- The V2 main loop's decode-and-scale step
(`Omron_TestScript_v2.py` line 117): `int(data_section, 16) / 10`,
with no two's-complement correction. -/
def v2_display_value (data_section : List Char) : Except FrameError Rat :=
  match hexToNat? data_section with
  | none => .error .NotHex
  | some value => .ok ((value : Rat) / 10)

/-- The V3 response-processing pipeline of the main loop:
`validate_and_clean_response` then `extract_data_section` then
`decode_signed_value` and scaling, short-circuiting on the first
`ValueError`. -/
def process_response (raw_response : List Char) : Except FrameError Rat := do
  let cleaned_response ← validate_and_clean_response raw_response
  let data_section ← extract_data_section cleaned_response
  v3_display_value data_section

/-- `Node = "01"` (node number). -/
def Node : String := "01"

/-- `SubAddress = "00"`. -/
def SubAddress : String := "00"

/-- `ServiceID = "0"`. -/
def ServiceID : String := "0"

/-- `MRC = "01"` (main request code). -/
def MRC : String := "01"

/-- `SRC = "01"` (sub request code). -/
def SRC : String := "01"

/-- `Variable_Type = "C0"`. -/
def Variable_Type : String := "C0"

/-- `Address = "0002"` (monitor values). -/
def Address : String := "0002"

/-- `Bit_Position = "00"`. -/
def Bit_Position : String := "00"

/-- `Number_of_Elements = "0001"` (read one element). -/
def Number_of_Elements : String := "0001"

/-- `CommandText = Variable_Type + Address + Bit_Position +
Number_of_Elements`. -/
def CommandText : String :=
  Variable_Type ++ Address ++ Bit_Position ++ Number_of_Elements

/-- `data_ascii = Node + SubAddress + ServiceID + MRC + SRC +
CommandText`, the full ASCII command text of every request frame. -/
def data_ascii : String :=
  Node ++ SubAddress ++ ServiceID ++ MRC ++ SRC ++ CommandText

/-- Decidable equality on pipeline results, so that concrete frames can
be evaluated inside proofs. -/
instance {ε α : Type} [DecidableEq ε] [DecidableEq α] :
    DecidableEq (Except ε α) := fun x y =>
  match x, y with
  | .ok a, .ok b =>
      if h : a = b then isTrue (by rw [h]) else isFalse (by simp [h])
  | .error a, .error b =>
      if h : a = b then isTrue (by rw [h]) else isFalse (by simp [h])
  | .ok _, .error _ => isFalse (by simp)
  | .error _, .ok _ => isFalse (by simp)

/-! ## Helper lemmas shared between the claims -/

/-- XOR-ing a byte list with its own running XOR yields 0. -/
theorem calculate_bcc_concat_self (l : List Nat) :
    calculate_bcc (l ++ [calculate_bcc l]) = 0 := by
  simp [calculate_bcc, List.foldl_append, Nat.xor_self]

/-- Splitting a list at the first occurrence of an element. -/
theorem mem_split_first {α : Type} [DecidableEq α] {a : α} {l : List α}
    (h : a ∈ l) : ∃ l₁ l₂, l = l₁ ++ a :: l₂ ∧ a ∉ l₁ := by
  induction l with
  | nil => cases h
  | cons x xs ih =>
    by_cases hx : x = a
    · exact ⟨[], xs, by simp [hx], by simp⟩
    · have hmem : a ∈ xs := by
        rcases List.mem_cons.mp h with h1 | h1
        · exact absurd h1.symm hx
        · exact h1
      rcases ih hmem with ⟨l₁, l₂, rfl, hni⟩
      refine ⟨x :: l₁, l₂, rfl, ?_⟩
      simp only [List.mem_cons, not_or]
      exact ⟨fun hh => hx hh.symm, hni⟩

/-- Taking up to and including the first ETX of a list that ends in
`'\x03' :: rest` with no earlier ETX returns the part up to that ETX. -/
theorem take_indexOf_first (body rest : List Char) (h : '\x03' ∉ body) :
    (body ++ '\x03' :: rest).take
        ((body ++ '\x03' :: rest).indexOf '\x03' + 1) =
      body ++ ['\x03'] := by
  induction body with
  | nil => simp [List.indexOf_cons]
  | cons c cs ih =>
    have hc : c ≠ '\x03' := fun hh => h (hh ▸ List.mem_cons_self c cs)
    have hcs : '\x03' ∉ cs := fun hh => h (List.mem_cons_of_mem c hh)
    simp [List.indexOf_cons, hc, ih hcs]

/-- Canonical success case of `validate_and_clean_response`: an input
that starts with STX and whose first ETX occurs right after `body`
is cleaned to STX, `body` and that ETX, dropping everything after. -/
theorem validate_ok_canonical (body rest : List Char) (h : '\x03' ∉ body) :
    validate_and_clean_response ('\x02' :: body ++ '\x03' :: rest) =
      .ok ('\x02' :: body ++ ['\x03']) := by
  rw [validate_and_clean_response]
  rw [if_neg (by simp), if_neg (by simp)]
  congr 1
  have hb : (('\x02' : Char) == '\x03') = false := by decide
  simp only [List.cons_append, List.indexOf_cons, hb, Bool.cond_false,
    List.take_succ_cons]
  exact congrArg _ (take_indexOf_first body rest h)

/-- Evaluation of `decode_signed_value` on a data section with a
successful base-16 parse. -/
theorem decode_signed_value_eq (s : List Char) (v : Nat)
    (h : hexToNat? s = some v) :
    decode_signed_value s =
      .ok (if v ≥ 2 ^ 15 then (v : Int) - 2 ^ 16 else (v : Int)) := by
  simp [decode_signed_value, h]

/-- Evaluation of the V3 decode-and-scale step on a data section with a
successful base-16 parse. -/
theorem v3_display_value_eq (s : List Char) (v : Nat)
    (h : hexToNat? s = some v) :
    v3_display_value s =
      .ok (((if v ≥ 2 ^ 15 then (v : Int) - 2 ^ 16 else (v : Int)) : Rat)
        / 10) := by
  simp [v3_display_value, decode_signed_value_eq s v h, Except.map]
  norm_num

/-- Evaluation of the V2 decode-and-scale step on a data section with a
successful base-16 parse. -/
theorem v2_display_value_eq (s : List Char) (v : Nat)
    (h : hexToNat? s = some v) :
    v2_display_value s = .ok ((v : Rat) / 10) := by
  simp [v2_display_value, h]

/-- On values below `2 ^ 15` the V2 and V3 scalings agree. -/
theorem v2_v3_agree (s : List Char) (v : Nat) (h : hexToNat? s = some v)
    (hv : v < 2 ^ 15) : v2_display_value s = v3_display_value s := by
  rw [v2_display_value_eq s v h, v3_display_value_eq s v h]
  rw [if_neg (fun hc => absurd hv (not_lt.mpr hc))]
  norm_num

/-- On values at or above `2 ^ 15` the V2 and V3 scalings differ. -/
theorem v2_v3_disagree (s : List Char) (v : Nat) (h : hexToNat? s = some v)
    (hv : 2 ^ 15 ≤ v) : v2_display_value s ≠ v3_display_value s := by
  rw [v2_display_value_eq s v h, v3_display_value_eq s v h]
  rw [if_pos (show v ≥ 2 ^ 15 from hv)]
  intro hc
  have hq := Except.ok.inj hc
  rw [div_eq_div_iff (by norm_num) (by norm_num)] at hq
  push_cast at hq
  linarith

/-- The V2 scaling of a value at or above `2 ^ 15` is positive. -/
theorem v2_pos (v : Nat) (hv : 2 ^ 15 ≤ v) : (0 : Rat) < (v : Rat) / 10 := by
  have h0 : (0 : Rat) < (v : Rat) := by
    exact_mod_cast lt_of_lt_of_le (by norm_num : 0 < 2 ^ 15) hv
  exact div_pos h0 (by norm_num)

/-- A frame body shorter than 16 characters makes
`extract_data_section` fail with `FrameTooShort`. -/
theorem extract_short (body : List Char) (hlen : body.length < 16) :
    extract_data_section ('\x02' :: body ++ ['\x03']) =
      .error .FrameTooShort := by
  simp only [extract_data_section, List.cons_append]
  rw [List.drop_succ_cons, List.drop_zero, List.dropLast_concat, if_pos hlen]

/-! ## The claims -/

/-- C1: for every ASCII `command_text` with no embedded STX/ETX bytes,
`build_request` (the main loop's frame construction) produces
`STX + command_text + ETX + BCC` where BCC is the XOR of every byte
after STX through ETX inclusive, and XOR-ing the whole post-STX segment
(command bytes + ETX + BCC) yields 0. -/
theorem build_request_bcc_spec (cmd : List Nat)
    (_hascii : ∀ b ∈ cmd, b < 128) (_hstx : STX ∉ cmd) (_hetx : ETX ∉ cmd) :
    build_request cmd = STX :: (cmd ++ [ETX, calculate_bcc (cmd ++ [ETX])]) ∧
    calculate_bcc ((build_request cmd).drop 1) = 0 := by
  constructor
  · simp [build_request]
  · simp only [build_request, List.cons_append, List.drop_succ_cons,
      List.drop_zero]
    exact calculate_bcc_concat_self _

/-- Witness for C1 at the concrete command bytes `[0x30, 0x31]`
(ASCII "01"). -/
theorem build_request_bcc_spec_witness :
    (∀ b ∈ [48, 49], b < 128) ∧ STX ∉ [48, 49] ∧ ETX ∉ [48, 49] ∧
    (build_request [48, 49] =
        STX :: ([48, 49] ++ [ETX, calculate_bcc ([48, 49] ++ [ETX])]) ∧
      calculate_bcc ((build_request [48, 49]).drop 1) = 0) :=
  ⟨by decide, by decide, by decide,
    build_request_bcc_spec [48, 49] (by decide) (by decide) (by decide)⟩

/-- C2: `decode_signed_value` parses the data section as base 16, then
subtracts `2 ^ 16` exactly when the parsed value is `≥ 2 ^ 15`, and the
V3 main loop divides the resulting signed integer by 10 with
real-number division; in particular "FFF6" decodes to -1 and "0002"
decodes to 0.2. -/
theorem decode_signed_spec :
    (∀ (s : List Char) (v : Nat), hexToNat? s = some v →
      decode_signed_value s =
        .ok (if v ≥ 2 ^ 15 then (v : Int) - 2 ^ 16 else (v : Int)) ∧
      v3_display_value s =
        .ok (((if v ≥ 2 ^ 15 then (v : Int) - 2 ^ 16 else (v : Int)) : Rat)
          / 10)) ∧
    v3_display_value ['F', 'F', 'F', '6'] = .ok (-1) ∧
    v3_display_value ['0', '0', '0', '2'] = .ok (1 / 5) := by
  refine ⟨fun s v h => ⟨decode_signed_value_eq s v h, v3_display_value_eq s v h⟩,
    ?_, ?_⟩
  · rw [v3_display_value_eq ['F', 'F', 'F', '6'] 65526 (by decide)]
    norm_num
  · rw [v3_display_value_eq ['0', '0', '0', '2'] 2 (by decide)]
    norm_num

/-- Witness for C2's quantified part at the data section "FFF6". -/
theorem decode_signed_spec_witness :
    hexToNat? ['F', 'F', 'F', '6'] = some 65526 ∧
    decode_signed_value ['F', 'F', 'F', '6'] =
      .ok (if 65526 ≥ 2 ^ 15 then ((65526 : Nat) : Int) - 2 ^ 16
           else ((65526 : Nat) : Int)) :=
  ⟨by decide,
    (decode_signed_spec.1 ['F', 'F', 'F', '6'] 65526 (by decide)).1⟩

/-- C3: the V2 decode (direct division, no two's-complement correction)
and the V3 decode agree exactly on data sections parsing below `2 ^ 15`,
and disagree on every data section parsing at or above `2 ^ 15`, where
V2 yields a (wrong) positive result. -/
theorem v2_v3_refinement (s : List Char) (v : Nat)
    (h : hexToNat? s = some v) :
    (v < 2 ^ 15 → v2_display_value s = v3_display_value s) ∧
    (2 ^ 15 ≤ v → v2_display_value s ≠ v3_display_value s ∧
      v2_display_value s = .ok ((v : Rat) / 10) ∧
      (0 : Rat) < (v : Rat) / 10) :=
  ⟨fun hv => v2_v3_agree s v h hv,
   fun hv => ⟨v2_v3_disagree s v h hv, v2_display_value_eq s v h, v2_pos v hv⟩⟩

/-- Witness for C3 at the data sections "0002" (positive, agree) and
"FFF6" (negative, disagree). -/
theorem v2_v3_refinement_witness :
    hexToNat? ['0', '0', '0', '2'] = some 2 ∧ 2 < 2 ^ 15 ∧
    v2_display_value ['0', '0', '0', '2'] =
      v3_display_value ['0', '0', '0', '2'] ∧
    hexToNat? ['F', 'F', 'F', '6'] = some 65526 ∧ 2 ^ 15 ≤ 65526 ∧
    v2_display_value ['F', 'F', 'F', '6'] ≠
      v3_display_value ['F', 'F', 'F', '6'] :=
  ⟨by decide, by decide,
    (v2_v3_refinement ['0', '0', '0', '2'] 2 (by decide)).1 (by decide),
    by decide, by decide,
    ((v2_v3_refinement ['F', 'F', 'F', '6'] 65526 (by decide)).2
      (by decide)).1⟩

/-- C4 counterexample: `validate_and_clean_response` does NOT return the
bytes strictly between STX and ETX; on the frame STX·"AB"·ETX·"X" it
returns the frame from STX through the first ETX inclusive, not "AB". -/
theorem validate_keeps_delimiters_counterexample :
    validate_and_clean_response ['\x02', 'A', 'B', '\x03', 'X'] =
      .ok ['\x02', 'A', 'B', '\x03'] ∧
    validate_and_clean_response ['\x02', 'A', 'B', '\x03', 'X'] ≠
      .ok ['A', 'B'] :=
  ⟨by decide, by decide⟩

/-- C4 (amended): for every raw sequence whose first byte is STX and
that contains an ETX, `validate_and_clean_response` truncates the input
at the first ETX, discarding everything after it, and returns the frame
from the leading STX through that first ETX inclusive (STX and ETX are
stripped later, by `extract_data_section`). -/
theorem validate_truncate_amended (body rest : List Char)
    (h : '\x03' ∉ body) :
    validate_and_clean_response ('\x02' :: body ++ '\x03' :: rest) =
      .ok ('\x02' :: body ++ ['\x03']) :=
  validate_ok_canonical body rest h

/-- Witness for the amended C4 at the frame STX·"A"·ETX·"X". -/
theorem validate_truncate_amended_witness :
    ('\x03' ∉ (['A'] : List Char)) ∧
    validate_and_clean_response ['\x02', 'A', '\x03', 'X'] =
      .ok ['\x02', 'A', '\x03'] :=
  ⟨by decide, validate_truncate_amended ['A'] ['X'] (by decide)⟩

/-- C5: `validate_and_clean_response` fails with `MissingSTX` whenever
the first byte is not STX (the empty input included), fails with
`MissingETX` whenever the input starts with STX but has no ETX, and
succeeds in all other cases. -/
theorem validate_error_cases (s : List Char) :
    (s.head? ≠ some '\x02' →
      validate_and_clean_response s = .error .MissingSTX) ∧
    (s.head? = some '\x02' → '\x03' ∉ s →
      validate_and_clean_response s = .error .MissingETX) ∧
    (s.head? = some '\x02' → '\x03' ∈ s →
      ∃ r, validate_and_clean_response s = .ok r) := by
  refine ⟨fun h => ?_, fun h1 h2 => ?_, fun h1 h2 => ?_⟩
  · rw [validate_and_clean_response, if_pos h]
  · rw [validate_and_clean_response, if_neg (by simp [h1]), if_pos h2]
  · exact ⟨_, by
      rw [validate_and_clean_response, if_neg (by simp [h1]),
        if_neg (by simp [h2])]⟩

/-- Witness for C5: the empty input and `['A']` give `MissingSTX`, an
STX-led input without ETX gives `MissingETX`, and an STX-led input with
an ETX succeeds. -/
theorem validate_error_cases_witness :
    validate_and_clean_response [] = .error .MissingSTX ∧
    validate_and_clean_response ['A'] = .error .MissingSTX ∧
    validate_and_clean_response ['\x02', 'A'] = .error .MissingETX ∧
    (∃ r, validate_and_clean_response ['\x02', 'A', '\x03'] = .ok r) :=
  ⟨(validate_error_cases []).1 (by decide),
   (validate_error_cases ['A']).1 (by decide),
   (validate_error_cases ['\x02', 'A']).2.1 (by decide) (by decide),
   (validate_error_cases ['\x02', 'A', '\x03']).2.2 (by decide) (by decide)⟩

/-- C6: a response whose content between STX and the first ETX is
shorter than 16 characters always fails with `FrameTooShort`, raised in
`extract_data_section`; the `Except`-chained pipeline short-circuits
there, so `decode_signed_value` (hex parsing) is never reached and the
pipeline's overall result is the `FrameTooShort` error itself. -/
theorem short_frame_pipeline (body rest : List Char) (hne : '\x03' ∉ body)
    (hlen : body.length < 16) :
    extract_data_section ('\x02' :: body ++ ['\x03']) =
      .error .FrameTooShort ∧
    process_response ('\x02' :: body ++ '\x03' :: rest) =
      .error .FrameTooShort := by
  refine ⟨extract_short body hlen, ?_⟩
  simp only [process_response, bind, Except.bind,
    validate_ok_canonical body rest hne, extract_short body hlen]

/-- Witness for C6 at a 4-character body. -/
theorem short_frame_pipeline_witness :
    ('\x03' ∉ (['0', '1', '0', '0'] : List Char)) ∧
    (['0', '1', '0', '0'] : List Char).length < 16 ∧
    (extract_data_section ('\x02' :: ['0', '1', '0', '0'] ++ ['\x03']) =
        .error .FrameTooShort ∧
      process_response ('\x02' :: ['0', '1', '0', '0'] ++ '\x03' :: ['Q']) =
        .error .FrameTooShort) :=
  ⟨by decide, by decide,
    short_frame_pipeline ['0', '1', '0', '0'] ['Q'] (by decide) (by decide)⟩

/-- C7: on every cleaned frame whose body (the frame minus its leading
STX and trailing ETX) has length at least 16, `extract_data_section`
returns exactly the substring of that body from offset 13 to the end. -/
theorem extract_data_section_offset (response : List Char)
    (hlen : 16 ≤ ((response.drop 1).dropLast).length) :
    extract_data_section response =
      .ok (((response.drop 1).dropLast).drop 13) := by
  simp only [extract_data_section]
  rw [if_neg (Nat.not_lt.mpr hlen)]

/-- Witness for C7 at a frame with a 17-character body whose data
section is "FFF6". -/
theorem extract_data_section_offset_witness :
    16 ≤ (((['\x02', '0', '1', '0', '0', '0', '0', '0', '1', '0', '2',
        '0', '0', '0', 'F', 'F', 'F', '6', '\x03'] : List Char).drop
        1).dropLast).length ∧
    extract_data_section ['\x02', '0', '1', '0', '0', '0', '0', '0', '1',
        '0', '2', '0', '0', '0', 'F', 'F', 'F', '6', '\x03'] =
      .ok ((((['\x02', '0', '1', '0', '0', '0', '0', '0', '1', '0', '2',
        '0', '0', '0', 'F', 'F', 'F', '6', '\x03'] : List Char).drop
        1).dropLast).drop 13) :=
  ⟨by decide,
    extract_data_section_offset ['\x02', '0', '1', '0', '0', '0', '0',
      '0', '1', '0', '2', '0', '0', '0', 'F', 'F', 'F', '6', '\x03']
      (by decide)⟩

/-- C8: `validate_and_clean_response` is idempotent on its own output:
whenever it succeeds, applying it again to the result succeeds and
returns the result unchanged. -/
theorem validate_idempotent (s r : List Char)
    (hok : validate_and_clean_response s = .ok r) :
    validate_and_clean_response r = .ok r := by
  by_cases h1 : s.head? = some '\x02'
  · by_cases h2 : '\x03' ∈ s
    · obtain ⟨tail, rfl⟩ : ∃ t, s = '\x02' :: t := by
        cases s with
        | nil => simp at h1
        | cons a t => exact ⟨t, by simp at h1; rw [h1]⟩
      have ht : '\x03' ∈ tail := by
        rcases List.mem_cons.mp h2 with hh | hh
        · exact absurd hh.symm (by decide)
        · exact hh
      obtain ⟨body, rest, rfl, hnb⟩ := mem_split_first ht
      have hok' : validate_and_clean_response ('\x02' :: body ++ '\x03' :: rest)
          = .ok r := hok
      rw [validate_ok_canonical body rest hnb] at hok'
      obtain rfl : r = '\x02' :: body ++ ['\x03'] := (Except.ok.inj hok').symm
      exact validate_ok_canonical body [] hnb
    · rw [validate_and_clean_response, if_neg (by simp [h1]),
        if_pos h2] at hok
      cases hok
  · rw [validate_and_clean_response, if_pos h1] at hok
    cases hok

/-- Witness for C8 at the frame STX·"A"·ETX·"X", whose cleaned output
STX·"A"·ETX re-validates to itself. -/
theorem validate_idempotent_witness :
    validate_and_clean_response ['\x02', 'A', '\x03', 'X'] =
      .ok ['\x02', 'A', '\x03'] ∧
    validate_and_clean_response ['\x02', 'A', '\x03'] =
      .ok ['\x02', 'A', '\x03'] :=
  ⟨by decide,
    validate_idempotent ['\x02', 'A', '\x03', 'X'] ['\x02', 'A', '\x03']
      (by decide)⟩

/-- C9 counterexample: the full command text `data_ascii` is not 19
ASCII characters long. -/
theorem command_text_length_counterexample : data_ascii.length ≠ 19 := by
  decide

/-- C9 (amended): the command text sent in every request frame — the
concatenation Node + SubAddress + ServiceID + MRC + SRC + VariableType +
Address + BitPosition + ElementCount with the fixed constant field
values — has a total length of exactly 21 ASCII characters
(2+2+1+2+2 header fields plus the 12-character CommandText). -/
theorem command_text_length_amended : data_ascii.length = 21 := by
  decide

/-- C10: `decode_signed_value` does not confine its result to the
16-bit signed range: the two's-complement subtraction is applied at most
once, so the over-long data section "1FFFF" (parsing to 131071) decodes
to 65535, outside [-32768, 32767]. -/
theorem decode_signed_range_overflow :
    hexToNat? ['1', 'F', 'F', 'F', 'F'] = some 131071 ∧
    decode_signed_value ['1', 'F', 'F', 'F', 'F'] = .ok 65535 ∧
    ¬((-32768 : Int) ≤ 65535 ∧ (65535 : Int) ≤ 32767) :=
  ⟨by decide, by decide, by decide⟩

end Omron
